import Mathlib

/-!
Shallow embedding of `src/msal-simple-helper.ts` (msal-simple-helper): a
single-session authentication orchestrator in front of a browser identity
library.  The module-level variables `msalInstance` and `authConfig` become an
explicit `SessionState`; the behavior of the identity client capability for the
calls an operation makes is an oracle (`MsalBehavior`, or an explicit outcome
argument for the injected `fnInit` / `fnLogout` parameters); every operation
returns its result, the updated state, and the ordered list of capability calls
it performed.  Promises that reject are modelled with `Except` / `Outcome.err`;
a full-page navigation, after which control never returns, is
`Outcome.navigated`.
-/

namespace MsalHelper

/-- Account handle supplied by the identity client capability; the orchestrator
never inspects it, so it is just an identity. -/
structure Account where
  id : Nat
deriving DecidableEq, Repr

/-- Authentication result from the capability; carries the associated account
(`loginResponse.account`). -/
structure AuthResult where
  account : Account
deriving DecidableEq, Repr

/-- A JavaScript array value for the `scopes` field: `ref` is the object
identity (two distinct array objects have distinct `ref`), `value` the
elements.  The source compares `scopes` with `!==`, which for arrays is a
comparison of object identity, i.e. of `ref`. -/
structure ScopesRef where
  ref : Nat
  value : List String
deriving DecidableEq, Repr

/-- The `AuthConfig` interface of the source (lines 4-11).  The
`redirectResponseHandler` callback is opaque and only its presence matters to
the control flow, so it is embedded as a `Bool` (present or absent). -/
structure AuthConfig where
  tenantId : String
  clientId : String
  scopes : Option ScopesRef := none
  flow : Option String := none
  redirectResponseHandler : Bool := false
  cacheLocation : Option String := none
deriving DecidableEq, Repr

/-- The errors the source throws, plus markers for errors propagated from the
capability (a rejected `loginPopup` / `acquireTokenPopup` / `fnLogout`). -/
inductive MsalError where
  | invalidConfig
  | invalidFlow
  | missingRedirectHandler
  | alreadyInitialized
  | notInitialized
  | initFailed
  | popupLoginFailed
  | popupTokenFailed
  | logoutFailed
deriving DecidableEq, Repr

/-- ASCII lower-casing of one character, as JS `toLowerCase` acts on the
characters relevant here (A-Z mapped to a-z, everything else unchanged). -/
def jsCharToLower (c : Char) : Char :=
  if 65 ≤ c.toNat ∧ c.toNat ≤ 90 then Char.ofNat (c.toNat + 32) else c

/-- JS `String.prototype.toLowerCase`, character by character. -/
def jsToLower (s : String) : String :=
  String.mk (s.data.map jsCharToLower)

/-- JS truthiness for an optional string: `undefined` and the empty string are
falsy. -/
def strTruthy : Option String → Bool
  | none => false
  | some s => !(s == "")

/-- The test `config.flow?.toLowerCase() === target` from the source; with
`flow` equal to `undefined` the optional chaining yields `undefined`, which is
not `===` to any string. -/
def flowLowerEq (flow : Option String) (target : String) : Bool :=
  match flow with
  | none => false
  | some f => jsToLower f == target

/-- JS strict inequality `cf1.scopes !== cf2.scopes`: `undefined !== undefined`
is false, an array is `!==` `undefined`, and two arrays are `!==` exactly when
they are distinct objects (distinct `ref`), whatever their elements. -/
def scopesNe : Option ScopesRef → Option ScopesRef → Bool
  | none, none => false
  | some a, some b => !(a.ref == b.ref)
  | _, _ => true

/-- The `configsDiffer` helper (lines 100-104). -/
def configsDiffer (cf1 cf2 : AuthConfig) : Bool :=
  !(cf1.tenantId == cf2.tenantId) ||
    !(cf1.clientId == cf2.clientId) ||
    scopesNe cf1.scopes cf2.scopes

/-- The `validateConfig` helper (lines 92-98).  The argument is optional in the
source (`config?`), with a missing config rejected first. -/
def validateConfig : Option AuthConfig → Except MsalError Unit
  | none => .error .invalidConfig
  | some config =>
    if strTruthy config.flow &&
        !(flowLowerEq config.flow "popup" || flowLowerEq config.flow "redirect") then
      .error .invalidFlow
    else if flowLowerEq config.flow "redirect" && !config.redirectResponseHandler then
      .error .missingRedirectHandler
    else
      .ok ()

/-- The client instance handle produced by `fnInit` (the default `doInit`
constructs a `PublicClientApplication`); the orchestrator treats it as
opaque. -/
structure Client where
  id : Nat
deriving DecidableEq, Repr

/-- The two module-level variables `msalInstance` and `authConfig`
(lines 13-14). -/
structure SessionState where
  msalInstance : Option Client := none
  authConfig : Option AuthConfig := none
deriving DecidableEq, Repr

/-- Calls made on the identity client capability, in the order the code
performs them.  `acquireTokenRedirectCall` is part of the capability interface
(`MsalLike`) but, as the theorems below show, is never emitted by the code. -/
inductive Event where
  | ssoSilentCall
  | setActive (a : Account)
  | loginPopupCall
  | loginRedirectCall
  | acquireTokenSilentCall (scopes : List String)
  | acquireTokenPopupCall (scopes : List String)
  | acquireTokenRedirectCall (scopes : List String)
  | logoutCall
deriving DecidableEq, Repr

/-- Outcome of an async operation: the promise resolves, it rejects with an
error, or the page navigates away and control never returns in-process. -/
inductive Outcome (α : Type) where
  | ok (a : α)
  | err (e : MsalError)
  | navigated
deriving DecidableEq, Repr

/-- Behavior of the constructed client instance for one orchestrated call
sequence: `none` means the corresponding promise rejects,
`loginRedirectNavigates` selects between the page actually unloading and the
call resolving in place (as the repository's test stubs make it do). -/
structure MsalBehavior where
  ssoSilentRes : Option AuthResult := none
  loginPopupRes : Option AuthResult := none
  loginRedirectNavigates : Bool := false
  acquireTokenSilentRes : Option AuthResult := none
  acquireTokenPopupRes : Option AuthResult := none
deriving Repr

/-- Result of `msalInit`: the returned-or-thrown value, the updated session
state, and whether the redirect-response chain (`handleRedirectPromise` plus
the completion handler) was wired up. -/
structure InitResult where
  result : Except MsalError Client
  state : SessionState
  redirectWired : Bool
deriving Repr

/-- The `msalInit` function (lines 22-44).  `fnInitRes` is the outcome of the
injected `fnInit` call; it is consulted only when no instance exists yet.  Note
the source stores the new instance and config, and wires the redirect chain,
only on the fresh-construction path; when an instance already exists it either
throws (differing stored config) or returns the existing instance unchanged. -/
def msalInit (fnInitRes : Except MsalError Client) (config : AuthConfig)
    (s : SessionState) : InitResult :=
  match validateConfig (some config) with
  | .error e => ⟨.error e, s, false⟩
  | .ok _ =>
    match s.msalInstance with
    | some inst =>
      match s.authConfig with
      | some stored =>
        if configsDiffer config stored then ⟨.error .alreadyInitialized, s, false⟩
        else ⟨.ok inst, s, false⟩
      | none => ⟨.ok inst, s, false⟩
    | none =>
      match fnInitRes with
      | .error e => ⟨.error e, s, false⟩
      | .ok client =>
        ⟨.ok client, ⟨some client, some config⟩, flowLowerEq config.flow "redirect"⟩

/-- The `doLogin` fallback sequence (lines 134-150): try `ssoSilent`, on
success set the active account and return; on failure branch on
`config.flow?.toLowerCase() === 'popup'` — the popup branch sets the active
account, while the else branch calls `loginRedirect` (returning `undefined` if
that call resolves in place). -/
def doLogin (beh : MsalBehavior) (config : AuthConfig) :
    Outcome (Option AuthResult) × List Event :=
  match beh.ssoSilentRes with
  | some res =>
    (.ok (some res), [.ssoSilentCall, .setActive res.account])
  | none =>
    if flowLowerEq config.flow "popup" then
      match beh.loginPopupRes with
      | some res =>
        (.ok (some res), [.ssoSilentCall, .loginPopupCall, .setActive res.account])
      | none => (.err .popupLoginFailed, [.ssoSilentCall, .loginPopupCall])
    else
      if beh.loginRedirectNavigates then
        (.navigated, [.ssoSilentCall, .loginRedirectCall])
      else
        (.ok none, [.ssoSilentCall, .loginRedirectCall])

/-- Result of `msalLogin`: outcome, updated state, capability calls made by the
login phase. -/
structure LoginResult where
  result : Outcome (Option AuthResult)
  state : SessionState
  events : List Event
deriving Repr

/-- The `msalLogin` function (lines 52-56): initialize (propagating any
initialization error), then run `fnLogin` (default `doLogin`) on the
instance. -/
def msalLogin (beh : MsalBehavior) (fnInitRes : Except MsalError Client)
    (config : AuthConfig) (s : SessionState) : LoginResult :=
  match msalInit fnInitRes config s with
  | ⟨.error e, s2, _⟩ => ⟨.err e, s2, []⟩
  | ⟨.ok _, s2, _⟩ => ⟨(doLogin beh config).1, s2, (doLogin beh config).2⟩

/-- The token request scopes, `authConfig?.scopes ?? []` (lines 66-68). -/
def tokenRequestScopes (s : SessionState) : List String :=
  match s.authConfig with
  | some cfg =>
    match cfg.scopes with
    | some sc => sc.value
    | none => []
  | none => []

/-- The `doGetAccessToken` fallback (lines 110-119): `acquireTokenSilent`
first; on rejection the error is swallowed (logged) and `acquireTokenPopup` is
awaited, whose outcome is returned or propagated. -/
def doGetAccessToken (beh : MsalBehavior) (scopes : List String) :
    Outcome AuthResult × List Event :=
  match beh.acquireTokenSilentRes with
  | some r => (.ok r, [.acquireTokenSilentCall scopes])
  | none =>
    match beh.acquireTokenPopupRes with
    | some r =>
      (.ok r, [.acquireTokenSilentCall scopes, .acquireTokenPopupCall scopes])
    | none =>
      (.err .popupTokenFailed,
        [.acquireTokenSilentCall scopes, .acquireTokenPopupCall scopes])

/-- Result of `msalGetAccessToken`. -/
structure TokenResult where
  result : Outcome AuthResult
  state : SessionState
  events : List Event
deriving Repr

/-- The `msalGetAccessToken` function (lines 63-70); it never assigns the
module variables, so the state is returned unchanged. -/
def msalGetAccessToken (beh : MsalBehavior) (s : SessionState) : TokenResult :=
  match s.msalInstance with
  | none => ⟨.err .notInitialized, s, []⟩
  | some _ =>
    ⟨(doGetAccessToken beh (tokenRequestScopes s)).1, s,
      (doGetAccessToken beh (tokenRequestScopes s)).2⟩

/-- Result of `msalLogout`. -/
structure LogoutResult where
  result : Outcome Unit
  state : SessionState
  events : List Event
deriving Repr

/-- The `msalLogout` function (lines 75-80).  `fnLogoutRes` is the outcome of
the injected `fnLogout` call (the default `doLogout` awaits the capability's
`logoutPopup`).  The two clearing assignments are the lines after the `await`,
so they run only when `fnLogout` resolves: a rejection propagates with the
state unchanged, and a navigation never reaches them. -/
def msalLogout (fnLogoutRes : Outcome Unit) (s : SessionState) : LogoutResult :=
  match s.msalInstance with
  | none => ⟨.ok (), s, []⟩
  | some _ =>
    match fnLogoutRes with
    | .ok _ => ⟨.ok (), ⟨none, none⟩, [.logoutCall]⟩
    | .err e => ⟨.err e, s, [.logoutCall]⟩
    | .navigated => ⟨.navigated, s, [.logoutCall]⟩

/-- The `msalDestroy` function (lines 167-170): both variables set to null. -/
def msalDestroy (_s : SessionState) : SessionState := ⟨none, none⟩

/-- The session-state invariant: the client is present iff the config is. -/
def sessionInv (s : SessionState) : Prop :=
  s.msalInstance.isSome = s.authConfig.isSome

/-- Value of a scopes field, forgetting the object identity. -/
def scopesValue (o : Option ScopesRef) : Option (List String) :=
  o.map ScopesRef.value

/-- Same config with the flow selector lower-cased. -/
def lowerFlow (cfg : AuthConfig) : AuthConfig :=
  { cfg with flow := cfg.flow.map jsToLower }

/-! Concrete fixtures used by witnesses and counterexamples. -/

def accA : Account := ⟨7⟩

def resA : AuthResult := ⟨accA⟩

def cfgBase : AuthConfig := { tenantId := "t1", clientId := "c1" }

def cfgOther : AuthConfig := { tenantId := "t2", clientId := "c1" }

def cfgRedirect : AuthConfig :=
  { tenantId := "t1", clientId := "c1", flow := some "redirect",
    redirectResponseHandler := true }

def cfgRedirNoHandler : AuthConfig :=
  { tenantId := "t1", clientId := "c1", flow := some "Redirect" }

def stBase : SessionState := ⟨some ⟨0⟩, some cfgBase⟩

def stRedirect : SessionState := ⟨some ⟨0⟩, some cfgRedirect⟩

def behSso : MsalBehavior := { ssoSilentRes := some resA }

def behSsoFail : MsalBehavior := { loginRedirectNavigates := true }

def behSilentFail : MsalBehavior := { acquireTokenPopupRes := some resA }

/-! Claim theorems. -/

/-- C1: in every login call in which the silent SSO attempt succeeds, `doLogin`
records setting the returned result's account as the capability's active
account in its call trace (so it happens before the call returns), returns that
result, and neither popup login nor redirect login is ever invoked. -/
theorem doLogin_ssoSuccess (beh : MsalBehavior) (config : AuthConfig)
    (r : AuthResult) (h : beh.ssoSilentRes = some r) :
    doLogin beh config = (.ok (some r), [.ssoSilentCall, .setActive r.account]) ∧
    Event.loginPopupCall ∉ (doLogin beh config).2 ∧
    Event.loginRedirectCall ∉ (doLogin beh config).2 := by
  simp [doLogin, h]

/-- Witness for C1 at a concrete behavior and config. -/
theorem doLogin_ssoSuccess_w :
    doLogin behSso cfgBase = (.ok (some resA), [.ssoSilentCall, .setActive resA.account]) ∧
    Event.loginPopupCall ∉ (doLogin behSso cfgBase).2 ∧
    Event.loginRedirectCall ∉ (doLogin behSso cfgBase).2 :=
  doLogin_ssoSuccess behSso cfgBase resA rfl

/-- C2: evaluating `doLogin` with the flow selector left unspecified and the
silent SSO attempt failing shows the code taking the redirect branch —
`loginRedirect` is invoked and `loginPopup` never is (the `=== 'popup'` test is
false for an absent flow), contradicting the documented popup default. -/
theorem doLogin_defaultFlow_goesRedirect :
    (doLogin behSsoFail cfgBase).2 = [.ssoSilentCall, .loginRedirectCall] ∧
    Event.loginPopupCall ∉ (doLogin behSsoFail cfgBase).2 := by
  decide

/-- C3 counterexample: in a session whose stored interaction mode is redirect,
when silent token acquisition fails the code falls back to popup acquisition
and never invokes redirect acquisition, contrary to the claim that the
fallback matches the stored mode. -/
theorem getAccessToken_redirectMode_popupFallback :
    (msalGetAccessToken behSilentFail stRedirect).events =
      [.acquireTokenSilentCall [], .acquireTokenPopupCall []] ∧
    Event.acquireTokenRedirectCall [] ∉ (msalGetAccessToken behSilentFail stRedirect).events := by
  decide

/-- C3 amended: in every initialized session in which silent token acquisition
fails, `msalGetAccessToken` falls back to popup acquisition regardless of the
session's stored interaction mode; redirect acquisition is never invoked. -/
theorem getAccessToken_fallback_popup (beh : MsalBehavior) (s : SessionState)
    (i : Client) (hi : s.msalInstance = some i)
    (hs : beh.acquireTokenSilentRes = none) :
    (msalGetAccessToken beh s).events =
      [.acquireTokenSilentCall (tokenRequestScopes s),
       .acquireTokenPopupCall (tokenRequestScopes s)] := by
  cases hp : beh.acquireTokenPopupRes <;>
    simp [msalGetAccessToken, doGetAccessToken, hi, hs, hp]

/-- Witness for the amended C3 at a concrete behavior and session. -/
theorem getAccessToken_fallback_popup_w :
    (msalGetAccessToken behSilentFail stRedirect).events =
      [.acquireTokenSilentCall (tokenRequestScopes stRedirect),
       .acquireTokenPopupCall (tokenRequestScopes stRedirect)] :=
  getAccessToken_fallback_popup behSilentFail stRedirect ⟨0⟩ rfl rfl

/-- C4 counterexample: with a client already present and a config equal to the
stored one, `msalInit` succeeds and returns the stored client with the state
unchanged, instead of failing with an already-initialized error. -/
theorem msalInit_sameConfig_noop :
    (msalInit (.ok ⟨1⟩) cfgBase stBase).result = .ok ⟨0⟩ ∧
    (msalInit (.ok ⟨1⟩) cfgBase stBase).state = stBase := by
  constructor <;> rfl

/-- C4 amended: when the session already holds a client (and a stored config),
`msalInit` on a config passing validation fails with the already-initialized
error exactly when the new config differs from the stored one per
`configsDiffer`; a non-differing config returns the stored client as a no-op
with the state unchanged. -/
theorem msalInit_reinit (fir : Except MsalError Client) (config : AuthConfig)
    (s : SessionState) (i : Client) (stored : AuthConfig)
    (hi : s.msalInstance = some i) (hc : s.authConfig = some stored)
    (hv : validateConfig (some config) = .ok ()) :
    msalInit fir config s =
      if configsDiffer config stored then ⟨.error .alreadyInitialized, s, false⟩
      else ⟨.ok i, s, false⟩ := by
  simp only [msalInit, hv, hi, hc]

/-- Witness for the amended C4 at a concrete differing config. -/
theorem msalInit_reinit_w :
    msalInit (.ok ⟨1⟩) cfgOther stBase =
      (if configsDiffer cfgOther cfgBase
        then ⟨.error .alreadyInitialized, stBase, false⟩
        else ⟨.ok ⟨0⟩, stBase, false⟩ : InitResult) :=
  msalInit_reinit (.ok ⟨1⟩) cfgOther stBase ⟨0⟩ cfgBase rfl rfl rfl

def cfgScopesA : AuthConfig :=
  { tenantId := "t1", clientId := "c1", scopes := some ⟨0, ["s1"]⟩ }

def cfgScopesB : AuthConfig :=
  { tenantId := "t1", clientId := "c1", scopes := some ⟨1, ["s1"]⟩ }

def stScopes : SessionState := ⟨some ⟨0⟩, some cfgScopesA⟩

/-- C5 counterexample: a config whose tenant id, client id and scopes are all
value-equal to the stored ones, but whose scopes array is a distinct object,
counts as differing: re-initialization fails with the already-initialized
error, so the comparison is not by value. -/
theorem msalInit_valueEqualScopes_differ :
    scopesValue cfgScopesB.scopes = scopesValue cfgScopesA.scopes ∧
    cfgScopesB.tenantId = cfgScopesA.tenantId ∧
    cfgScopesB.clientId = cfgScopesA.clientId ∧
    (msalInit (.ok ⟨1⟩) cfgScopesB stScopes).result = .error .alreadyInitialized := by
  refine ⟨rfl, rfl, rfl, rfl⟩

/-- C5 amended: after a prior successful initialization, a subsequent config
whose tenant id, client id, or scopes differ by value from the stored config
fails with the already-initialized error (assuming scope references are
consistent, i.e. an identical reference carries an identical value); however
the scopes comparison the code performs is by reference, so a value-equal but
distinct scopes array also counts as differing. -/
theorem msalInit_drift_fails (fir : Except MsalError Client)
    (config : AuthConfig) (s : SessionState) (i : Client) (stored : AuthConfig)
    (hi : s.msalInstance = some i) (hc : s.authConfig = some stored)
    (hv : validateConfig (some config) = .ok ())
    (href : ∀ a b, config.scopes = some a → stored.scopes = some b →
      a.ref = b.ref → a.value = b.value)
    (hdiff : config.tenantId ≠ stored.tenantId ∨
      config.clientId ≠ stored.clientId ∨
      scopesValue config.scopes ≠ scopesValue stored.scopes) :
    (msalInit fir config s).result = .error .alreadyInitialized ∧
    (msalInit fir config s).state = s := by
  have hd : configsDiffer config stored = true := by
    rcases hdiff with h | h | h
    · simp [configsDiffer, h]
    · simp [configsDiffer, h]
    · rcases hcs : config.scopes with _ | a <;> rcases hss : stored.scopes with _ | b
      · rw [hcs, hss] at h; exact absurd rfl h
      · simp [configsDiffer, scopesNe, hcs, hss]
      · simp [configsDiffer, scopesNe, hcs, hss]
      · have hrne : a.ref ≠ b.ref := by
          intro hr
          have hval := href a b hcs hss hr
          rw [hcs, hss] at h
          simp [scopesValue, hval] at h
        simp [configsDiffer, scopesNe, hcs, hss, hrne]
  simp only [msalInit, hv, hi, hc, hd]
  exact ⟨rfl, rfl⟩

/-- Witness for the amended C5 at a concrete drifting config. -/
theorem msalInit_drift_fails_w :
    (msalInit (.ok ⟨1⟩) cfgOther stBase).result = .error .alreadyInitialized ∧
    (msalInit (.ok ⟨1⟩) cfgOther stBase).state = stBase :=
  msalInit_drift_fails (.ok ⟨1⟩) cfgOther stBase ⟨0⟩ cfgBase rfl rfl rfl
    (fun _ _ ha _ _ => Option.noConfusion ha)
    (Or.inl (by decide))

/-- C6: a config whose flow selector lower-cases to redirect and whose
redirect-response callback is absent fails validation at both `msalInit` and
`msalLogin`, with the session state unchanged and no client constructed: the
result does not depend on the injected `fnInit` outcome, and the redirect
chain is not wired. -/
theorem redirect_without_handler_fails (config : AuthConfig) (f : String)
    (hf : config.flow = some f) (hl : jsToLower f = "redirect")
    (hh : config.redirectResponseHandler = false)
    (fir : Except MsalError Client) (beh : MsalBehavior) (s : SessionState) :
    msalInit fir config s = ⟨.error .missingRedirectHandler, s, false⟩ ∧
    msalLogin beh fir config s = ⟨.err .missingRedirectHandler, s, []⟩ := by
  have hv : validateConfig (some config) = .error .missingRedirectHandler := by
    simp [validateConfig, flowLowerEq, hf, hl, hh]
  constructor
  · simp only [msalInit, hv]
  · simp only [msalLogin, msalInit, hv]

/-- Witness for C6 at a concrete redirect-mode config with no handler. -/
theorem redirect_without_handler_fails_w :
    msalInit (.ok ⟨1⟩) cfgRedirNoHandler ⟨none, none⟩ =
      ⟨.error .missingRedirectHandler, ⟨none, none⟩, false⟩ ∧
    msalLogin {} (.ok ⟨1⟩) cfgRedirNoHandler ⟨none, none⟩ =
      ⟨.err .missingRedirectHandler, ⟨none, none⟩, []⟩ :=
  redirect_without_handler_fails cfgRedirNoHandler "Redirect" rfl (by decide)
    rfl (.ok ⟨1⟩) {} ⟨none, none⟩

/-- C7 counterexample: when a client exists and the capability logout call
fails, `msalLogout` propagates the failure and the session state is not
cleared — the client is still present afterwards. -/
theorem msalLogout_failure_keepsState :
    (msalLogout (.err .logoutFailed) stBase).result = .err .logoutFailed ∧
    (msalLogout (.err .logoutFailed) stBase).state = stBase := by
  constructor <;> rfl

/-- C7 amended: `msalLogout` on a session with no client is a no-op that does
not throw; with a client present, the state is cleared (client and config
absent) exactly when the capability logout call resolves, while a failing
logout call propagates its error with the state unchanged. -/
theorem msalLogout_spec (fr : Outcome Unit) (s : SessionState) :
    (s.msalInstance = none → msalLogout fr s = ⟨.ok (), s, []⟩) ∧
    (s.msalInstance ≠ none → fr = .ok () →
      msalLogout fr s = ⟨.ok (), ⟨none, none⟩, [.logoutCall]⟩) ∧
    (∀ e, s.msalInstance ≠ none → fr = .err e →
      msalLogout fr s = ⟨.err e, s, [.logoutCall]⟩) := by
  refine ⟨?_, ?_, ?_⟩
  · intro h
    simp [msalLogout, h]
  · intro h hf
    cases hm : s.msalInstance with
    | none => exact absurd hm h
    | some i => simp [msalLogout, hm, hf]
  · intro e h hf
    cases hm : s.msalInstance with
    | none => exact absurd hm h
    | some i => simp [msalLogout, hm, hf]

/-- Witness for the amended C7: successful capability logout clears the
state. -/
theorem msalLogout_spec_w :
    msalLogout (.ok ()) stBase = ⟨.ok (), ⟨none, none⟩, [.logoutCall]⟩ :=
  (msalLogout_spec (.ok ()) stBase).2.1 (by decide) rfl

/-- C8: the embedded `AuthConfig` has no skip-silent-sso field, and `doLogin`
invokes the silent SSO attempt first on every call, for every capability
behavior and every expressible config. -/
theorem doLogin_always_attempts_sso (beh : MsalBehavior) (config : AuthConfig) :
    (doLogin beh config).2.head? = some Event.ssoSilentCall ∧
    Event.ssoSilentCall ∈ (doLogin beh config).2 := by
  rcases h : beh.ssoSilentRes with _ | r
  · cases hp : beh.loginPopupRes <;>
      cases hn : beh.loginRedirectNavigates <;>
        by_cases hfl : flowLowerEq config.flow "popup" = true <;>
          simp [doLogin, h, hp, hn, hfl]
  · simp [doLogin, h]

/-- The state after `msalLogin` is exactly the state after its `msalInit`
phase, whatever the login fallback does. -/
theorem msalLogin_state (beh : MsalBehavior) (fir : Except MsalError Client)
    (config : AuthConfig) (s : SessionState) :
    (msalLogin beh fir config s).state = (msalInit fir config s).state := by
  unfold msalLogin
  rcases hini : msalInit fir config s with ⟨r, st, w⟩
  cases r <;> rfl

/-- The state after `msalGetAccessToken` is unchanged. -/
theorem msalGetAccessToken_state (beh : MsalBehavior) (s : SessionState) :
    (msalGetAccessToken beh s).state = s := by
  unfold msalGetAccessToken
  rcases hmi : s.msalInstance with _ | i <;> rfl

/-- C9: the invariant that the stored client is present iff the stored config
is present is preserved by every public operation — initialize, login, token
acquisition, logout, and the testing reset — whether it completes normally or
with an error. -/
theorem sessionInv_preserved (s : SessionState) (h : sessionInv s)
    (beh : MsalBehavior) (fir : Except MsalError Client) (config : AuthConfig)
    (fr : Outcome Unit) :
    sessionInv (msalInit fir config s).state ∧
    sessionInv (msalLogin beh fir config s).state ∧
    sessionInv (msalGetAccessToken beh s).state ∧
    sessionInv (msalLogout fr s).state ∧
    sessionInv (msalDestroy s) := by
  have hinit : sessionInv (msalInit fir config s).state := by
    rcases hv : validateConfig (some config) with e | u
    · simp only [msalInit, hv]; exact h
    · rcases hmi : s.msalInstance with _ | inst
      · rcases hfir : fir with e | c
        · simp only [msalInit, hv, hmi, hfir]; exact h
        · simp only [msalInit, hv, hmi, hfir]; rfl
      · rcases hac : s.authConfig with _ | stored
        · simp only [msalInit, hv, hmi, hac]; exact h
        · by_cases hd : configsDiffer config stored = true
          · simp only [msalInit, hv, hmi, hac, hd, if_true]; exact h
          · simp only [msalInit, hv, hmi, hac, hd, Bool.false_eq_true, if_false]
            exact h
  refine ⟨hinit, ?_, ?_, ?_, rfl⟩
  · rw [msalLogin_state]; exact hinit
  · rw [msalGetAccessToken_state]; exact h
  · unfold msalLogout
    rcases hmi : s.msalInstance with _ | i
    · exact h
    · rcases fr with u | e | _
      · rfl
      · exact h
      · exact h

/-- Witness for C9 at a concrete fresh session. -/
theorem sessionInv_preserved_w :
    sessionInv (msalInit (.ok ⟨1⟩) cfgBase ⟨none, none⟩).state ∧
    sessionInv (msalLogin {} (.ok ⟨1⟩) cfgBase ⟨none, none⟩).state ∧
    sessionInv (msalGetAccessToken {} ⟨none, none⟩).state ∧
    sessionInv (msalLogout (.ok ()) ⟨none, none⟩).state ∧
    sessionInv (msalDestroy ⟨none, none⟩) :=
  sessionInv_preserved ⟨none, none⟩ rfl {} (.ok ⟨1⟩) cfgBase (.ok ())

/-- Two configs agreeing on the result of validation, on `configsDiffer`
against every stored config, and on the redirect test, make `msalInit` behave
the same: same result, same redirect wiring, same stored instance. -/
theorem msalInit_congr (c1 c2 : AuthConfig)
    (hval : validateConfig (some c1) = validateConfig (some c2))
    (hdif : ∀ st, configsDiffer c1 st = configsDiffer c2 st)
    (hred : flowLowerEq c1.flow "redirect" = flowLowerEq c2.flow "redirect")
    (fir : Except MsalError Client) (s : SessionState) :
    (msalInit fir c1 s).result = (msalInit fir c2 s).result ∧
    (msalInit fir c1 s).redirectWired = (msalInit fir c2 s).redirectWired ∧
    (msalInit fir c1 s).state.msalInstance = (msalInit fir c2 s).state.msalInstance := by
  rcases hvc : validateConfig (some c2) with e | u
  · have hv1 : validateConfig (some c1) = .error e := by rw [hval, hvc]
    simp [msalInit, hv1, hvc]
  · have hv1 : validateConfig (some c1) = .ok u := by rw [hval, hvc]
    rcases hmi : s.msalInstance with _ | inst
    · rcases hfir : fir with e | c
      · simp [msalInit, hv1, hvc, hmi, hfir]
      · simp [msalInit, hv1, hvc, hmi, hfir, hred]
    · rcases hac : s.authConfig with _ | stored
      · simp [msalInit, hv1, hvc, hmi, hac]
      · by_cases hd : configsDiffer c2 stored = true
        · have hd1 : configsDiffer c1 stored = true := by rw [hdif, hd]
          simp [msalInit, hv1, hvc, hmi, hac, hd, hd1]
        · have hd1 : ¬configsDiffer c1 stored = true := by rw [hdif]; exact hd
          simp [msalInit, hv1, hvc, hmi, hac, hd, hd1]

/-- Two configs agreeing on the popup test make `doLogin` behave the same. -/
theorem doLogin_congr (c1 c2 : AuthConfig)
    (hpop : flowLowerEq c1.flow "popup" = flowLowerEq c2.flow "popup")
    (beh : MsalBehavior) : doLogin beh c1 = doLogin beh c2 := by
  unfold doLogin
  rw [hpop]

/-- C10: the flow selector is matched case-insensitively: for every config
whose flow equals popup or redirect up to letter case, validation never
rejects the flow value, and validation, the init branching (result, redirect
wiring, stored instance) and the login branching agree with the same config
carrying the lower-cased flow. -/
theorem flow_case_insensitive (config : AuthConfig) (f : String)
    (hf : config.flow = some f)
    (hl : jsToLower f = "popup" ∨ jsToLower f = "redirect") :
    validateConfig (some config) ≠ .error .invalidFlow ∧
    validateConfig (some config) = validateConfig (some (lowerFlow config)) ∧
    (∀ beh, doLogin beh config = doLogin beh (lowerFlow config)) ∧
    (∀ fir s,
      (msalInit fir config s).result = (msalInit fir (lowerFlow config) s).result ∧
      (msalInit fir config s).redirectWired =
        (msalInit fir (lowerFlow config) s).redirectWired ∧
      (msalInit fir config s).state.msalInstance =
        (msalInit fir (lowerFlow config) s).state.msalInstance) := by
  have hflow2 : (lowerFlow config).flow = some (jsToLower f) := by
    simp [lowerFlow, hf]
  rcases hl with hp | hp
  · have hne : f ≠ "" := by
      intro h0; rw [h0] at hp; exact absurd hp (by decide)
    have etr : strTruthy config.flow = true := by
      rw [hf]; simp [strTruthy, hne]
    have e1 : flowLowerEq config.flow "popup" = true := by
      rw [hf]; simp [flowLowerEq, hp]
    have e2 : flowLowerEq config.flow "redirect" = false := by
      rw [hf]; simp [flowLowerEq, hp]
    have e1L : flowLowerEq (lowerFlow config).flow "popup" = true := by
      rw [hflow2, hp]; decide
    have e2L : flowLowerEq (lowerFlow config).flow "redirect" = false := by
      rw [hflow2, hp]; decide
    have etrL : strTruthy (lowerFlow config).flow = true := by
      rw [hflow2, hp]; decide
    have hv : validateConfig (some config) = .ok () := by
      simp [validateConfig, etr, e1, e2]
    have hvL : validateConfig (some (lowerFlow config)) = .ok () := by
      simp [validateConfig, etrL, e1L, e2L]
    refine ⟨by simp [hv], by rw [hv, hvL], ?_, ?_⟩
    · intro beh
      exact doLogin_congr config (lowerFlow config) (by rw [e1, e1L]) beh
    · intro fir s
      exact msalInit_congr config (lowerFlow config) (by rw [hv, hvL])
        (fun st => rfl) (by rw [e2, e2L]) fir s
  · have hne : f ≠ "" := by
      intro h0; rw [h0] at hp; exact absurd hp (by decide)
    have etr : strTruthy config.flow = true := by
      rw [hf]; simp [strTruthy, hne]
    have e1 : flowLowerEq config.flow "popup" = false := by
      rw [hf]; simp [flowLowerEq, hp]
    have e2 : flowLowerEq config.flow "redirect" = true := by
      rw [hf]; simp [flowLowerEq, hp]
    have e1L : flowLowerEq (lowerFlow config).flow "popup" = false := by
      rw [hflow2, hp]; decide
    have e2L : flowLowerEq (lowerFlow config).flow "redirect" = true := by
      rw [hflow2, hp]; decide
    have etrL : strTruthy (lowerFlow config).flow = true := by
      rw [hflow2, hp]; decide
    have hhL : (lowerFlow config).redirectResponseHandler =
        config.redirectResponseHandler := rfl
    cases hh : config.redirectResponseHandler
    · have hv : validateConfig (some config) = .error .missingRedirectHandler := by
        simp [validateConfig, etr, e1, e2, hh]
      have hvL : validateConfig (some (lowerFlow config)) =
          .error .missingRedirectHandler := by
        simp [validateConfig, etrL, e1L, e2L, hhL, hh]
      refine ⟨by simp [hv], by rw [hv, hvL], ?_, ?_⟩
      · intro beh
        exact doLogin_congr config (lowerFlow config) (by rw [e1, e1L]) beh
      · intro fir s
        exact msalInit_congr config (lowerFlow config) (by rw [hv, hvL])
          (fun st => rfl) (by rw [e2, e2L]) fir s
    · have hv : validateConfig (some config) = .ok () := by
        simp [validateConfig, etr, e1, e2, hh]
      have hvL : validateConfig (some (lowerFlow config)) = .ok () := by
        simp [validateConfig, etrL, e1L, e2L, hhL, hh]
      refine ⟨by simp [hv], by rw [hv, hvL], ?_, ?_⟩
      · intro beh
        exact doLogin_congr config (lowerFlow config) (by rw [e1, e1L]) beh
      · intro fir s
        exact msalInit_congr config (lowerFlow config) (by rw [hv, hvL])
          (fun st => rfl) (by rw [e2, e2L]) fir s

def cfgUpper : AuthConfig :=
  { tenantId := "t1", clientId := "c1", flow := some "POPUP" }

/-- Witness for C10 at a concrete upper-cased flow value. -/
theorem flow_case_insensitive_w :
    validateConfig (some cfgUpper) = validateConfig (some (lowerFlow cfgUpper)) ∧
    doLogin behSsoFail cfgUpper = doLogin behSsoFail (lowerFlow cfgUpper) :=
  ⟨(flow_case_insensitive cfgUpper "POPUP" rfl (Or.inl (by decide))).2.1,
   (flow_case_insensitive cfgUpper "POPUP" rfl (Or.inl (by decide))).2.2.1 behSsoFail⟩

end MsalHelper
